import Mathlib

/-!
Verification development for the k8s-endpoint-updater repository.

The Go sources are shallowly embedded: machine bytes become `Nat` with
explicit `% 256` where overflow matters, `net.IP` values become lists of
byte values, fallible calls return `Except`, and the Kubernetes API server
becomes an explicit store value threaded through the operations.
-/

set_option autoImplicit false

/-- A resolved pod identity together with its IP address.  Embeds
`provider.PodInfo` (fields `Name` and `IP net.IP`); the IP is the list of
its bytes. -/
structure PodInfo where
  name : String
  ip : List Nat
deriving DecidableEq, Repr

/-- The separator used by the dotted-decimal rendering of an IPv4
address. -/
def dotSep : String := "."

/-- Models `net.IP.String()` for a 4-byte IPv4 value: the dotted-decimal
rendering `a.b.c.d`. -/
def ipString (ip : List Nat) : String :=
  String.intercalate dotSep (ip.map toString)

namespace bridge

/-- The 12-byte head that Go's `net` package puts in front of the four IPv4
bytes when it stores an IPv4 address in 16-byte form (ten zero bytes
followed by `0xff 0xff`). -/
def v4InV6Head : List Nat := [0, 0, 0, 0, 0, 0, 0, 0, 0, 0, 255, 255]

/-- Models `net.ParseIP(ip.String())` for a 4-byte IPv4 value `ip`: parsing
a dotted-decimal literal yields the 16-byte form, the IPv4 bytes preceded
by `v4InV6Head`.  This is the first line of `incrIPV4` in
service/provider/bridge/bridge.go. -/
def parseIPString (ip : List Nat) : List Nat := v4InV6Head ++ ip

/-- The loop of `incrIPV4` (bridge.go lines 101-106), expressed on the
reversed byte list: each byte is incremented modulo 256 and the loop stops
as soon as an increment does not wrap to zero. -/
def incrBytesFromRight : List Nat → List Nat
  | [] => []
  | b :: rest =>
    if (b + 1) % 256 > 0 then (b + 1) % 256 :: rest
    else 0 :: incrBytesFromRight rest

/-- `incrIPV4` from bridge.go: re-parse the 4-byte IPv4 value into its
16-byte form, then increment the byte array from the right with carry. -/
def incrIPV4 (ip : List Nat) : List Nat :=
  ((incrBytesFromRight (parseIPString ip).reverse)).reverse

/-- Models `net.IP.To4`: a 4-byte value is returned as is; a 16-byte value
is reduced to its last four bytes when it carries the IPv4-in-IPv6 head;
anything else is not an IPv4 address. -/
def to4 (ip : List Nat) : Option (List Nat) :=
  if ip.length = 4 then some ip
  else if ip.length = 16 ∧ ip.take 12 = v4InV6Head then some (ip.drop 12)
  else none

/-- One bound address of a network interface.  `none` embeds the case in
which the address is neither a `*net.IPNet` nor a `*net.IPAddr`, so the
`switch` in `ipv4FromInterface` leaves `ip` nil. -/
abbrev IfAddr := Option (List Nat)

/-- The addresses bound to the named interfaces of the host, keyed by
interface name.  This is the collaborator state behind
`net.InterfaceByName` and `Interface.Addrs`. -/
abbrev Interfaces := List (String × List IfAddr)

/-- Errors surfaced by the bridge provider. -/
inductive LookupErr where
  /-- `net.InterfaceByName` failed: no interface with the given name. -/
  | interfaceNotFound
  /-- `ipv4FromInterface` scanned every address without finding an IPv4. -/
  | noIPv4
deriving DecidableEq, Repr

/-- Models `net.InterfaceByName`: the addresses of the first interface
with the given name, or an error when none exists. -/
def interfaceByName : Interfaces → String → Except LookupErr (List IfAddr)
  | [], _ => .error LookupErr.interfaceNotFound
  | (n, addrs) :: rest, name =>
    if n = name then .ok addrs else interfaceByName rest name

/-- `ipv4FromInterface` (bridge.go lines 111-140): scan the bound
addresses, skip absent and non-IPv4 ones, and return the first IPv4 in
4-byte form. -/
def ipv4FromInterface : List IfAddr → Except LookupErr (List Nat)
  | [] => .error LookupErr.noIPv4
  | a :: rest =>
    match a with
    | none => ipv4FromInterface rest
    | some ip =>
      match to4 ip with
      | none => ipv4FromInterface rest
      | some ipv4 => .ok ipv4

/-- `Provider.Lookup` (bridge.go lines 70-96): resolve the configured
bridge interface, take its first IPv4 address, and return that address
incremented by one. -/
def Lookup (ifs : Interfaces) (bridgeName : String) : Except LookupErr (List Nat) :=
  match interfaceByName ifs bridgeName with
  | .error e => .error e
  | .ok addrs =>
    match ipv4FromInterface addrs with
    | .error e => .error e
    | .ok ip => .ok (incrIPV4 ip)

end bridge

/-- The error classes returned by the Kubernetes API as the updater
distinguishes them: a missing object, a create colliding with an existing
object (the Go code detects this by searching the error text for
"already exists"), and the updater's own execution failure. -/
inductive K8sErr where
  | notFound
  | alreadyExists
  | executionFailed
deriving DecidableEq, Repr

namespace updater1

/-- One declared port of a Kubernetes service (`apiv1.ServicePort`), with
the fields that matter to port copying: name, protocol and port number. -/
structure ServicePort where
  name : String
  protocol : String
  port : Int
deriving DecidableEq, Repr

/-- A Kubernetes service, reduced to its declared ports
(`s.Spec.Ports`), the only part the updater reads. -/
structure Service where
  ports : List ServicePort
deriving DecidableEq, Repr

/-- One port of an endpoints subset (`apiv1.EndpointPort`).  The Go zero
value of the protocol field is the empty string. -/
structure EndpointPort where
  name : String
  port : Int
  protocol : String
deriving DecidableEq, Repr

/-- One address of an endpoints subset (`apiv1.EndpointAddress`).  The
create-variant updater writes addresses with only the IP set and a nil
target reference. -/
structure EndpointAddress where
  ip : String
deriving DecidableEq, Repr

/-- `apiv1.EndpointSubset`: a list of addresses and a list of ports. -/
structure EndpointSubset where
  addresses : List EndpointAddress
  ports : List EndpointPort
deriving DecidableEq, Repr

/-- `apiv1.Endpoints`, reduced to its object name and subsets. -/
structure Endpoints where
  name : String
  subsets : List EndpointSubset
deriving DecidableEq, Repr

/-- The relevant state of the Kubernetes API server: services and
endpoints objects, each keyed by namespace and object name. -/
structure Store where
  services : List (String × String × Service)
  endpoints : List (String × String × Endpoints)
deriving DecidableEq, Repr

/-- First service stored under the given namespace and name. -/
def lookupSvc : List (String × String × Service) → String → String → Option Service
  | [], _, _ => none
  | (n, m, s) :: rest, ns, name =>
    if n = ns ∧ m = name then some s else lookupSvc rest ns name

/-- First endpoints object stored under the given namespace and name. -/
def lookupEp : List (String × String × Endpoints) → String → String → Option Endpoints
  | [], _, _ => none
  | (n, m, e) :: rest, ns, name =>
    if n = ns ∧ m = name then some e else lookupEp rest ns name

/-- Models `kubernetesClient.Services(namespace).Get(service, ...)`. -/
def getService (st : Store) (ns name : String) : Except K8sErr Service :=
  match lookupSvc st.services ns name with
  | some s => .ok s
  | none => .error K8sErr.notFound

/-- Models `kubernetesClient.Endpoints(namespace).Create(endpoint)`: the
create fails with an "already exists" error when an endpoints object with
the same name is present in the namespace. -/
def createEndpoints (st : Store) (ns : String) (e : Endpoints) : Except K8sErr Store :=
  match lookupEp st.endpoints ns e.name with
  | some _ => .error K8sErr.alreadyExists
  | none => .ok { st with endpoints := (ns, e.name, e) :: st.endpoints }

/-- `serviceToPorts` from the create-variant updater: one endpoint port
per declared service port, copying the name and the port number.  The
protocol field of the endpoint port is not assigned, so it keeps its zero
value, the empty string. -/
def serviceToPorts (s : Service) : List EndpointPort :=
  s.ports.map (fun p => { name := p.name, port := p.port, protocol := "" })

/-- The endpoints object built in the body of `Updater.Update`: one subset
holding one address (the fact's IP rendered as a string) and the ports
copied from the service. -/
def newEndpoint (service : String) (s : Service) (pi : PodInfo) : Endpoints :=
  { name := service,
    subsets := [{ addresses := [{ ip := ipString pi.ip }],
                  ports := serviceToPorts s }] }

/-- Models `strings.Contains(err.Error(), "already exists")`, the check
guarding the `continue` in `Updater.Update`. -/
def errTextHasAlreadyExists : K8sErr → Bool
  | K8sErr.alreadyExists => true
  | _ => false

/-- `Updater.Update` of the create-variant updater: for each fact, fetch
the service, build a fresh endpoints object carrying only that fact's
address, and try to create it; a create that collides with an existing
object is skipped and the loop continues. -/
def Update (st : Store) (ns service : String) : List PodInfo → Except K8sErr Store
  | [] => .ok st
  | pi :: rest =>
    match getService st ns service with
    | .error e => .error e
    | .ok s =>
      match createEndpoints st ns (newEndpoint service s pi) with
      | .ok st2 => Update st2 ns service rest
      | .error e =>
        if errTextHasAlreadyExists e then Update st ns service rest
        else .error e

/-- The address set of a record: every address IP across its subsets. -/
def addressSet (e : Endpoints) : List String :=
  e.subsets.flatMap (fun s => s.addresses.map (fun a => a.ip))

/-- The address set stored for the given namespace and name; empty when no
record exists. -/
def addrSetOf (st : Store) (ns name : String) : List String :=
  match lookupEp st.endpoints ns name with
  | none => []
  | some e => addressSet e

/-- The per-subset port lists stored for the given namespace and name. -/
def epPortsOf (st : Store) (ns name : String) : List (List EndpointPort) :=
  match lookupEp st.endpoints ns name with
  | none => []
  | some e => e.subsets.map (fun s => s.ports)

/-- Remove one fact's address entry from every subset of a record. -/
def removeFactAddr (e : Endpoints) (pi : PodInfo) : Endpoints :=
  { e with subsets := e.subsets.map (fun s =>
      { s with addresses := s.addresses.filter (fun a => a.ip != ipString pi.ip) }) }

/-- Replace every record stored under the given namespace and name. -/
def replaceEpList : List (String × String × Endpoints) → String → String → Endpoints →
    List (String × String × Endpoints)
  | [], _, _, _ => []
  | (n, m, e0) :: rest, ns, name, e =>
    if n = ns ∧ m = name then (n, m, e) :: replaceEpList rest ns name e
    else (n, m, e0) :: replaceEpList rest ns name e

/-- Replace the record stored under the given namespace and name. -/
def replaceEp (st : Store) (ns name : String) (e : Endpoints) : Store :=
  { st with endpoints := replaceEpList st.endpoints ns name e }

/-- The store after retraction: each fact's address entry is removed from
the record's address set; an absent record, like an absent entry, leaves
the store untouched. -/
def retractResult (st : Store) (ns service : String) (facts : List PodInfo) : Store :=
  match lookupEp st.endpoints ns service with
  | none => st
  | some e => replaceEp st ns service (facts.foldl removeFactAddr e)

/-- Modelled from the spec: the retraction path of the update command
calls `updater.Delete` (the goroutine after the first termination signal),
but the `Delete` implementation is not among the source files.  Per the
spec, `Retract(namespace, serviceName, facts)` performs symmetric removal
of each fact's address entry from the ServiceRecord's address set, and a
missing entry is not an error. -/
def Retract (st : Store) (ns service : String) (facts : List PodInfo) : Except K8sErr Store :=
  Except.ok (retractResult st ns service facts)

end updater1

namespace updater2

/-- One address of an endpoints subset as the patch-variant updater reads
it: the IP together with the name of the target reference the address
points at (`a.TargetRef.Name`). -/
structure EndpointAddress where
  targetRefName : String
  ip : String
deriving DecidableEq, Repr

/-- A subset as the patch-variant updater touches it: only the address
list is read and written. -/
structure EndpointSubset where
  addresses : List EndpointAddress
deriving DecidableEq, Repr

/-- An endpoints object of the patch-variant updater. -/
structure Endpoints where
  name : String
  subsets : List EndpointSubset
deriving DecidableEq, Repr

/-- `podInfoByName`: the first pod info whose name equals the given name,
or an execution failure when none matches. -/
def podInfoByName : List PodInfo → String → Except K8sErr PodInfo
  | [], _ => .error K8sErr.executionFailed
  | pi :: rest, name => if pi.name = name then .ok pi else podInfoByName rest name

/-- One step of the patch loop of the patch-variant `Updater.Update`: an
address whose target pod has no fact is left unchanged (the loop
continues); otherwise its IP is overwritten with the fact's IP and the
found flag is raised.  The second component reports whether a fact
matched. -/
def patchAddress (podInfos : List PodInfo) (a : EndpointAddress) : EndpointAddress × Bool :=
  match podInfoByName podInfos a.targetRefName with
  | .error _ => (a, false)
  | .ok pi => ({ a with ip := ipString pi.ip }, true)

/-- The inner address loop, threading the found flag. -/
def patchAddrList (podInfos : List PodInfo) :
    List EndpointAddress → Bool → List EndpointAddress × Bool
  | [], found => ([], found)
  | a :: rest, found =>
    let p := patchAddress podInfos a
    let r := patchAddrList podInfos rest (found || p.2)
    (p.1 :: r.1, r.2)

/-- The subset loop, threading the found flag. -/
def patchSubsetList (podInfos : List PodInfo) :
    List EndpointSubset → Bool → List EndpointSubset × Bool
  | [], found => ([], found)
  | s :: rest, found =>
    let p := patchAddrList podInfos s.addresses found
    let r := patchSubsetList podInfos rest p.2
    ({ addresses := p.1 } :: r.1, r.2)

/-- The item loop of the patch-variant `Updater.Update`: each listed
endpoints object is patched in place and written back; if after an item no
address has matched any fact so far (the found flag, never reset, is still
low) the update aborts with an execution failure. -/
def updateItems (podInfos : List PodInfo) : List Endpoints → Bool → Except K8sErr (List Endpoints)
  | [], _ => .ok []
  | e :: rest, found =>
    let p := patchSubsetList podInfos e.subsets found
    if p.2 then
      match updateItems podInfos rest p.2 with
      | .ok rest2 => .ok ({ e with subsets := p.1 } :: rest2)
      | .error er => .error er
    else .error K8sErr.executionFailed

/-- The patch-variant `Updater.Update` on the endpoints objects listed in
the namespace. -/
def Update (items : List Endpoints) (podInfos : List PodInfo) : Except K8sErr (List Endpoints) :=
  updateItems podInfos items false

end updater2

namespace cmdupdate

/-- The classification of a failure the spec's retry policy speaks about:
transient (network or store unavailability) versus permanent (invalid
configuration, malformed address). -/
inductive ErrKind where
  | transient
  | permanent
deriving DecidableEq, Repr

/-- Models `backoff.Retry`/`backoff.RetryNotify` as the update command
invokes them around `Lookup`, `Create` and `Delete`: the wrapped action is
retried after every failure, whatever its kind, because the command never
wraps an error in a permanent marker and `microerror.MaskAny` preserves
none.  The exponential back-off eventually gives up after its elapsed-time
budget, modelled by the fuel; the result counts the attempts made. -/
def backoffRetry (fuel : Nat) (action : Nat → Except ErrKind Unit) (attempt : Nat) :
    Except ErrKind Nat :=
  match action attempt with
  | .ok _ => .ok (attempt + 1)
  | .error e =>
    match fuel with
    | 0 => .error e
    | f + 1 => backoffRetry f action (attempt + 1)

/-- The phases of the lifecycle in which an unrecoverable failure can
abort the process. -/
inductive Phase where
  | resolving
  | applying
  | retracting
deriving DecidableEq, Repr

/-- The exit code of the process when a phase fails, read off the update
command: a failing `execute` (which covers the lookup and the apply retry
loops) makes `Command.Execute` log and exit with code 1, and the
retraction goroutine exits with code 1 when its delete retry loop fails. -/
def exitCodeOnFailure : Phase → Nat
  | Phase.resolving => 1
  | Phase.applying => 1
  | Phase.retracting => 1

/-- The event that unblocks the process after the first termination
signal: either the retraction goroutine finishes (successfully or with its
retries exhausted), or a second termination signal arrives on the listener
channel first. -/
inductive WaitEvent where
  | retractionDone (success : Bool)
  | secondSignal
deriving DecidableEq, Repr

/-- What the process run ends with: the exit code and whether the
retraction sequence was completed (ran through, or exhausted its retries)
before the process exited. -/
structure ExitOutcome where
  exitCode : Nat
  retractionCompleted : Bool
deriving DecidableEq, Repr

/-- Models the tail of the update command after the first termination
signal is received: the delete retry loop runs in a goroutine (exit 0 on
success, exit 1 when retries are exhausted) while the main flow blocks on
a second signal and exits 0 as soon as one arrives; whichever event is
delivered first decides the outcome. -/
def afterFirstSignal : WaitEvent → ExitOutcome
  | WaitEvent.retractionDone true => { exitCode := 0, retractionCompleted := true }
  | WaitEvent.retractionDone false => { exitCode := 1, retractionCompleted := true }
  | WaitEvent.secondSignal => { exitCode := 0, retractionCompleted := false }

end cmdupdate

/-! Concrete values used to evaluate the model on explicit inputs. -/

/-- The default guest-cluster namespace. -/
def nsDefault : String := "default"

/-- A service name. -/
def svcGuest : String := "guest"

/-- A bridge interface name. -/
def brName : String := "br0"

/-- A first fact: pod `p1` at 172.17.0.2. -/
def pod1 : PodInfo := { name := "p1", ip := [172, 17, 0, 2] }

/-- A second fact with a different identity and address. -/
def pod2 : PodInfo := { name := "p2", ip := [172, 17, 0, 3] }

/-- A duplicate fact: the same identity as `pod1` but another address. -/
def pod1dup : PodInfo := { name := "p1", ip := [10, 0, 0, 9] }

/-- A service with no declared ports. -/
def svc0 : updater1.Service := { ports := [] }

/-- A store holding the `guest` service and no endpoints. -/
def st0 : updater1.Store :=
  { services := [(nsDefault, svcGuest, svc0)], endpoints := [] }

/-- The store `st0` after the endpoints record for `pod1` was created. -/
def st1 : updater1.Store :=
  { services := st0.services,
    endpoints := [(nsDefault, svcGuest, updater1.newEndpoint svcGuest svc0 pod1)] }

/-- A port name. -/
def portDnsName : String := "dns"

/-- A declared protocol that is not the endpoint-port zero value. -/
def protoUDP : String := "UDP"

/-- A service declaring one UDP port. -/
def svcU : updater1.Service :=
  { ports := [{ name := portDnsName, protocol := protoUDP, port := 53 }] }

/-- A store holding the UDP-port service and no endpoints. -/
def stU : updater1.Store :=
  { services := [(nsDefault, svcGuest, svcU)], endpoints := [] }

/-- The store `stU` after the endpoints record for `pod1` was created. -/
def stU2 : updater1.Store :=
  { services := stU.services,
    endpoints := [(nsDefault, svcGuest, updater1.newEndpoint svcGuest svcU pod1)] }

/-- An endpoint address whose target reference is pod `p1`. -/
def addrX : updater2.EndpointAddress := { targetRefName := "p1", ip := "0.0.0.0" }

/-- An action that fails with a permanent error on its first attempt and
succeeds afterwards. -/
def permThenOk : Nat → Except cmdupdate.ErrKind Unit :=
  fun n => if n = 0 then Except.error cmdupdate.ErrKind.permanent else Except.ok ()

/-! Helper lemmas. -/

namespace bridge

theorem ipv4FromInterface_first (addrs : List IfAddr) :
    ipv4FromInterface addrs =
      match addrs.filterMap (fun a => a.bind to4) with
      | [] => Except.error LookupErr.noIPv4
      | v4 :: _ => Except.ok v4 := by
  induction addrs with
  | nil => rfl
  | cons a rest ih =>
    cases a with
    | none => simpa [ipv4FromInterface, List.filterMap_cons] using ih
    | some ip =>
      cases h : to4 ip with
      | none => simpa [ipv4FromInterface, List.filterMap_cons, h] using ih
      | some v4 => simp [ipv4FromInterface, List.filterMap_cons, h]

theorem interfaceByName_not_found :
    ∀ (ifs : Interfaces) (name : String), (∀ p ∈ ifs, p.1 ≠ name) →
      interfaceByName ifs name = Except.error LookupErr.interfaceNotFound := by
  intro ifs
  induction ifs with
  | nil => intro name h; rfl
  | cons p rest ih =>
    intro name h
    obtain ⟨n, addrs⟩ := p
    rw [interfaceByName, if_neg (h (n, addrs) (by simp))]
    exact ih name (fun q hq => h q (by simp [hq]))

end bridge

namespace updater1

theorem newEndpoint_name (svc : String) (s : Service) (pi : PodInfo) :
    (newEndpoint svc s pi).name = svc := rfl

theorem update_noop_of_exists (ns svc : String) (s : Service) (e : Endpoints)
    (l : List PodInfo) (st : Store)
    (hs : lookupSvc st.services ns svc = some s)
    (he : lookupEp st.endpoints ns svc = some e) :
    Update st ns svc l = Except.ok st := by
  induction l with
  | nil => rfl
  | cons pi rest ih =>
    unfold Update
    simp [getService, hs, createEndpoints, newEndpoint_name, he, errTextHasAlreadyExists, ih]

theorem lookupEp_cons_self (ns svc : String) (e : Endpoints)
    (l : List (String × String × Endpoints)) :
    lookupEp ((ns, svc, e) :: l) ns svc = some e := by
  simp [lookupEp]

theorem update_fresh (ns svc : String) (s : Service) (pi : PodInfo) (rest : List PodInfo)
    (st : Store)
    (hs : lookupSvc st.services ns svc = some s)
    (he : lookupEp st.endpoints ns svc = none) :
    Update st ns svc (pi :: rest) =
      Except.ok { st with endpoints := (ns, svc, newEndpoint svc s pi) :: st.endpoints } := by
  unfold Update
  simp only [getService, hs, createEndpoints, newEndpoint_name, he]
  exact update_noop_of_exists ns svc s (newEndpoint svc s pi) rest _ hs
    (lookupEp_cons_self ns svc _ _)

theorem lookupEp_replaceEpList (ns svc : String) (e2 : Endpoints) :
    ∀ (eps : List (String × String × Endpoints)) (e0 : Endpoints),
      lookupEp eps ns svc = some e0 →
      lookupEp (replaceEpList eps ns svc e2) ns svc = some e2 := by
  intro eps
  induction eps with
  | nil => intro e0 h; simp [lookupEp] at h
  | cons t rest ih =>
    intro e0 h
    obtain ⟨n, m, e⟩ := t
    rw [lookupEp] at h
    unfold replaceEpList
    by_cases hc : n = ns ∧ m = svc
    · obtain ⟨rfl, rfl⟩ := hc
      simp [lookupEp]
    · rw [if_neg hc] at h
      rw [if_neg hc, lookupEp, if_neg hc]
      exact ih e0 h

theorem addrs_nil_flatMap (L : List EndpointSubset)
    (h : ∀ s ∈ L, s.addresses = []) :
    L.flatMap (fun s => s.addresses.map (fun a => a.ip)) = [] := by
  induction L with
  | nil => rfl
  | cons s rest ih =>
    simp [List.flatMap_cons, h s (by simp), ih (fun t ht => h t (by simp [ht]))]

theorem removeFact_preserves_nil (e : Endpoints) (pi : PodInfo)
    (h : ∀ s ∈ e.subsets, s.addresses = []) :
    ∀ s ∈ (removeFactAddr e pi).subsets, s.addresses = [] := by
  intro s hs
  simp [removeFactAddr] at hs
  obtain ⟨t, ht, rfl⟩ := hs
  simp [h t ht]

theorem foldl_removeFact_nil :
    ∀ (facts : List PodInfo) (e : Endpoints),
      (∀ s ∈ e.subsets, s.addresses = []) →
      ∀ s ∈ (facts.foldl removeFactAddr e).subsets, s.addresses = [] := by
  intro facts
  induction facts with
  | nil => intro e h; exact h
  | cons pi rest ih =>
    intro e h
    exact ih (removeFactAddr e pi) (removeFact_preserves_nil e pi h)

theorem removeFact_newEndpoint_self (svc : String) (s : Service) (pi : PodInfo) :
    ∀ t ∈ (removeFactAddr (newEndpoint svc s pi) pi).subsets, t.addresses = [] := by
  intro t ht
  simp [removeFactAddr, newEndpoint] at ht
  simp [ht]

end updater1

namespace updater2

theorem podInfoByName_append_skip (n : String) (pi : PodInfo) :
    ∀ (l1 l : List PodInfo), (∀ q ∈ l1, q.name ≠ n) → pi.name = n →
      podInfoByName (l1 ++ pi :: l) n = Except.ok pi := by
  intro l1
  induction l1 with
  | nil =>
    intro l h hn
    simp [podInfoByName, hn]
  | cons q rest ih =>
    intro l h hn
    rw [List.cons_append, podInfoByName, if_neg (h q (by simp))]
    exact ih l (fun r hr => h r (by simp [hr])) hn

end updater2

/-! Claim theorems. -/

namespace bridge

/-- C1 counterexample: incrementing 255.255.255.255 does not yield
0.0.0.0.  The carry runs past the four IPv4 bytes into the IPv4-in-IPv6
head of the 16-byte parsed form, producing a value that is not an IPv4
address at all. -/
theorem c1_counterexample :
    incrIPV4 [255, 255, 255, 255] = [0, 0, 0, 0, 0, 0, 0, 0, 0, 1, 0, 0, 0, 0, 0, 0]
    ∧ incrIPV4 [255, 255, 255, 255] ≠ parseIPString [0, 0, 0, 0]
    ∧ to4 (incrIPV4 [255, 255, 255, 255]) = none := by
  refine ⟨by decide, by decide, by decide⟩

/-- C1 (amended): for every dotted-decimal IPv4 address a.b.c.d with
d < 255 the increment yields a.b.c.(d+1); for d = 255 the carry moves
leftward through the byte array as unsigned increment with carry, so
10.0.0.255 becomes 10.0.1.0 — but the array carried through is the
16-byte parsed form, so 255.255.255.255 carries into the IPv4-in-IPv6
head and yields a non-IPv4 16-byte value, not 0.0.0.0. -/
theorem c1_increment :
    (∀ a b c d : Nat, d < 255 →
        incrIPV4 [a, b, c, d] = parseIPString [a, b, c, d + 1])
    ∧ (∀ a b c : Nat, c < 255 →
        incrIPV4 [a, b, c, 255] = parseIPString [a, b, c + 1, 0])
    ∧ incrIPV4 [10, 0, 0, 255] = parseIPString [10, 0, 1, 0]
    ∧ incrIPV4 [255, 255, 255, 255] = [0, 0, 0, 0, 0, 0, 0, 0, 0, 1, 0, 0, 0, 0, 0, 0] := by
  refine ⟨?_, ?_, by decide, by decide⟩
  · intro a b c d hd
    have h1 : (d + 1) % 256 = d + 1 := Nat.mod_eq_of_lt (by omega)
    simp [incrIPV4, parseIPString, v4InV6Head, incrBytesFromRight, h1]
  · intro a b c hc
    have h1 : (c + 1) % 256 = c + 1 := Nat.mod_eq_of_lt (by omega)
    simp [incrIPV4, parseIPString, v4InV6Head, incrBytesFromRight, h1]

/-- C1 witness: the increment theorem applied to the concrete address
172.17.0.1. -/
theorem c1_witness :
    incrIPV4 [172, 17, 0, 1] = parseIPString [172, 17, 0, 2] :=
  c1_increment.1 172 17 0 1 (by decide)

/-- C4 (confirmed): `Lookup` resolves the named interface, selects the
first valid IPv4 bound to it (skipping absent and non-IPv4 addresses) and
returns that address incremented by one; it errs when the named interface
does not exist, and errs with the no-IPv4 error when an existing
interface has no IPv4 address bound. -/
theorem c4_lookup :
    (∀ (ifs : Interfaces) (name : String),
        Lookup ifs name =
          match interfaceByName ifs name with
          | Except.error e => Except.error e
          | Except.ok addrs =>
            match addrs.filterMap (fun a => a.bind to4) with
            | [] => Except.error LookupErr.noIPv4
            | v4 :: _ => Except.ok (incrIPV4 v4))
    ∧ (∀ (ifs : Interfaces) (name : String),
        (∀ p ∈ ifs, p.1 ≠ name) →
        Lookup ifs name = Except.error LookupErr.interfaceNotFound) := by
  constructor
  · intro ifs name
    unfold Lookup
    cases hi : interfaceByName ifs name with
    | error e => rfl
    | ok addrs =>
      cases hl : addrs.filterMap (fun a => a.bind to4) with
      | nil => simp [ipv4FromInterface_first, hl]
      | cons v4 tl => simp [ipv4FromInterface_first, hl]
  · intro ifs name h
    unfold Lookup
    rw [interfaceByName_not_found ifs name h]

/-- C4 witness: looking up any interface name on a host with no
interfaces fails with the interface-not-found error. -/
theorem c4_witness :
    Lookup [] brName = Except.error LookupErr.interfaceNotFound :=
  c4_lookup.2 [] brName (by simp)

end bridge

namespace updater1

/-- C2 counterexample: applying the two facts `pod1` and `pod2` to a store
holding the service and no endpoints record succeeds, yet the resulting
address set holds only `pod1`'s address — `pod2`'s address entry is
missing, so the set does not contain one entry per supplied fact. -/
theorem c2_counterexample :
    Update st0 nsDefault svcGuest [pod1, pod2] = Except.ok st1
    ∧ addrSetOf st1 nsDefault svcGuest = [ipString pod1.ip]
    ∧ ipString pod2.ip ∉ addrSetOf st1 nsDefault svcGuest := by
  refine ⟨rfl, by decide, by decide⟩

/-- C2 (amended): after a successful Apply that starts from a store in
which the service exists and no endpoints record does, the destination
record's address set contains exactly one entry: the address of the first
supplied fact.  The create attempts for every later fact collide with the
record just created, are skipped as "already exists", and contribute no
entries. -/
theorem c2_first_fact_only (st st2 : Store) (ns svc : String) (s : Service)
    (pi : PodInfo) (rest : List PodInfo)
    (hs : lookupSvc st.services ns svc = some s)
    (he : lookupEp st.endpoints ns svc = none)
    (h : Update st ns svc (pi :: rest) = Except.ok st2) :
    addrSetOf st2 ns svc = [ipString pi.ip] := by
  rw [update_fresh ns svc s pi rest st hs he] at h
  cases h
  simp [addrSetOf, lookupEp_cons_self, addressSet, newEndpoint]

/-- C2 witness: the amended theorem applied to the concrete two-fact
run. -/
theorem c2_witness :
    addrSetOf st1 nsDefault svcGuest = [ipString pod1.ip] :=
  c2_first_fact_only st0 st1 nsDefault svcGuest svc0 pod1 [pod2] (by rfl) (by rfl) (by rfl)

/-- C3 (confirmed): Apply is idempotent — when an Apply run succeeds,
running it again with the identical fact list succeeds and leaves the
store (hence the record's address set) unchanged; and on a store whose
record already exists, Apply succeeds outright because the "record
already exists" create response is treated as success, not failure. -/
theorem c3_apply_idempotent :
    (∀ (st st2 : Store) (ns svc : String) (l : List PodInfo),
        Update st ns svc l = Except.ok st2 →
        Update st2 ns svc l = Except.ok st2)
    ∧ (∀ (st : Store) (ns svc : String) (s : Service) (e : Endpoints) (l : List PodInfo),
        lookupSvc st.services ns svc = some s →
        lookupEp st.endpoints ns svc = some e →
        Update st ns svc l = Except.ok st) := by
  constructor
  · intro st st2 ns svc l h
    cases l with
    | nil =>
      unfold Update at h
      cases h
      rfl
    | cons pi rest =>
      cases hsv : lookupSvc st.services ns svc with
      | none =>
        unfold Update at h
        simp [getService, hsv] at h
      | some s =>
        cases hep : lookupEp st.endpoints ns svc with
        | some e =>
          rw [update_noop_of_exists ns svc s e (pi :: rest) st hsv hep] at h
          cases h
          exact update_noop_of_exists ns svc s e (pi :: rest) st hsv hep
        | none =>
          rw [update_fresh ns svc s pi rest st hsv hep] at h
          cases h
          exact update_noop_of_exists ns svc s (newEndpoint svc s pi) (pi :: rest) _ hsv
            (lookupEp_cons_self ns svc _ _)
  · exact fun st ns svc s e l hs he => update_noop_of_exists ns svc s e l st hs he

/-- C3 witness: the idempotence theorem applied to the concrete two-fact
run that produced `st1`. -/
theorem c3_witness :
    Update st1 nsDefault svcGuest [pod1, pod2] = Except.ok st1 :=
  c3_apply_idempotent.1 st0 st1 nsDefault svcGuest [pod1, pod2] (by rfl)

/-- C5 counterexample: the service declares one UDP port, the Apply run
succeeds, and the written record carries that port's name and number —
but with an empty protocol, so the declared port specification was not
copied verbatim. -/
theorem c5_counterexample :
    Update stU nsDefault svcGuest [pod1] = Except.ok stU2
    ∧ svcU.ports.map (fun p => (p.name, p.port, p.protocol)) = [(portDnsName, 53, protoUDP)]
    ∧ epPortsOf stU2 nsDefault svcGuest =
        [[{ name := portDnsName, port := 53, protocol := "" }]]
    ∧ epPortsOf stU2 nsDefault svcGuest ≠
        [[{ name := portDnsName, port := 53, protocol := protoUDP }]] := by
  refine ⟨rfl, by decide, by decide, by decide⟩

/-- C5 (amended): the record a fresh Apply writes carries exactly the
ports produced by `serviceToPorts` from the looked-up service — one port
per declared service port with the name and port number copied verbatim —
while every written port's protocol field is left at the empty string
rather than copied from the declaration. -/
theorem c5_ports (st st2 : Store) (ns svc : String) (s : Service)
    (pi : PodInfo) (rest : List PodInfo)
    (hs : lookupSvc st.services ns svc = some s)
    (he : lookupEp st.endpoints ns svc = none)
    (h : Update st ns svc (pi :: rest) = Except.ok st2) :
    epPortsOf st2 ns svc = [serviceToPorts s]
    ∧ (serviceToPorts s).map (fun p => (p.name, p.port)) =
        s.ports.map (fun p => (p.name, p.port))
    ∧ (serviceToPorts s).map (fun p => p.protocol) = s.ports.map (fun _ => "") := by
  refine ⟨?_, ?_, ?_⟩
  · rw [update_fresh ns svc s pi rest st hs he] at h
    cases h
    simp [epPortsOf, lookupEp_cons_self, newEndpoint]
  · simp [serviceToPorts]
  · simp only [serviceToPorts, List.map_map]
    rfl

/-- C5 witness: the ports theorem applied to the concrete UDP-port run. -/
theorem c5_witness :
    epPortsOf stU2 nsDefault svcGuest = [serviceToPorts svcU]
    ∧ (serviceToPorts svcU).map (fun p => (p.name, p.port)) =
        svcU.ports.map (fun p => (p.name, p.port))
    ∧ (serviceToPorts svcU).map (fun p => p.protocol) = svcU.ports.map (fun _ => "") :=
  c5_ports stU stU2 nsDefault svcGuest svcU pod1 [] (by rfl) (by rfl) (by rfl)

/-- C9 (confirmed): Retract is a left inverse of Apply for a fact set
applied on top of an absent record — retracting the facts just applied
leaves the record's address set empty — and Retract never fails, so
retracting entries that are absent is not an error. -/
theorem c9_retract_left_inverse :
    (∀ (st st2 : Store) (ns svc : String) (facts : List PodInfo),
        lookupEp st.endpoints ns svc = none →
        Update st ns svc facts = Except.ok st2 →
        Retract st2 ns svc facts = Except.ok (retractResult st2 ns svc facts)
        ∧ addrSetOf (retractResult st2 ns svc facts) ns svc = [])
    ∧ (∀ (st : Store) (ns svc : String) (facts : List PodInfo),
        Retract st ns svc facts = Except.ok (retractResult st ns svc facts)) := by
  constructor
  · intro st st2 ns svc facts he h
    refine ⟨rfl, ?_⟩
    cases facts with
    | nil =>
      unfold Update at h
      cases h
      simp [retractResult, he, addrSetOf]
    | cons pi rest =>
      cases hsv : lookupSvc st.services ns svc with
      | none =>
        unfold Update at h
        simp [getService, hsv] at h
      | some s =>
        rw [update_fresh ns svc s pi rest st hsv he] at h
        cases h
        have hlook := lookupEp_cons_self ns svc (newEndpoint svc s pi) st.endpoints
        have hnil : ∀ t ∈ ((pi :: rest).foldl removeFactAddr (newEndpoint svc s pi)).subsets,
            t.addresses = [] := by
          intro t ht
          exact foldl_removeFact_nil rest (removeFactAddr (newEndpoint svc s pi) pi)
            (removeFact_newEndpoint_self svc s pi) t ht
        have hrepl := lookupEp_replaceEpList ns svc
          ((pi :: rest).foldl removeFactAddr (newEndpoint svc s pi))
          ((ns, svc, newEndpoint svc s pi) :: st.endpoints) (newEndpoint svc s pi) hlook
        simp only [retractResult, hlook, addrSetOf, replaceEp, hrepl, addressSet]
        exact addrs_nil_flatMap _ hnil
  · intro st ns svc facts
    rfl

/-- C9 witness: retracting the concrete fact list just applied empties
the concrete record's address set, without an error. -/
theorem c9_witness :
    Retract st1 nsDefault svcGuest [pod1, pod2] =
      Except.ok (retractResult st1 nsDefault svcGuest [pod1, pod2])
    ∧ addrSetOf (retractResult st1 nsDefault svcGuest [pod1, pod2]) nsDefault svcGuest = [] :=
  c9_retract_left_inverse.1 st0 st1 nsDefault svcGuest [pod1, pod2] (by rfl) (by rfl)

end updater1

namespace updater2

/-- C10 (confirmed): in the patch-in-place updater, when the supplied fact
list contains two facts with the same identity, the address written for an
endpoint address targeting that identity is the one of the fact appearing
first in the list: `podInfoByName` returns the first match. -/
theorem c10_first_fact_wins (l1 l2 l3 : List PodInfo) (pi pi2 : PodInfo)
    (a : EndpointAddress)
    (h1 : ∀ q ∈ l1, q.name ≠ pi.name)
    (_h2 : pi2.name = pi.name)
    (ha : a.targetRefName = pi.name) :
    patchAddress (l1 ++ pi :: (l2 ++ pi2 :: l3)) a =
      ({ a with ip := ipString pi.ip }, true) := by
  unfold patchAddress
  rw [ha, podInfoByName_append_skip pi.name pi l1 (l2 ++ pi2 :: l3) h1 rfl]

/-- C10 witness: with the duplicate facts `pod1` and `pod1dup` (same
identity), the address written for target `p1` is `pod1`'s, the first in
the list. -/
theorem c10_witness :
    patchAddress [pod1, pod1dup] addrX = ({ addrX with ip := ipString pod1.ip }, true) :=
  c10_first_fact_wins [] [] [] pod1 pod1dup addrX (by simp) (by rfl) (by rfl)

end updater2

namespace cmdupdate

/-- C6 counterexample: when a second termination signal is delivered
before the retraction goroutine finishes, the process exits (with code 0)
without the retraction sequence having completed — the later signal does
have an effect, so signals are not coalesced with the first one winning. -/
theorem c6_counterexample :
    (afterFirstSignal WaitEvent.secondSignal).retractionCompleted = false
    ∧ (afterFirstSignal WaitEvent.secondSignal).exitCode = 0 :=
  ⟨rfl, rfl⟩

/-- C6 (amended): after the first termination signal the retraction
sequence starts, and when it finishes first the process exits having
completed it (code 0 on success, code 1 on an exhausted retry budget);
but a second termination signal received before that point forces an
immediate exit with code 0, aborting the retraction — later signals are
not coalesced into the first. -/
theorem c6_signal_race :
    (∀ s : Bool,
        (afterFirstSignal (WaitEvent.retractionDone s)).retractionCompleted = true)
    ∧ (afterFirstSignal (WaitEvent.retractionDone true)).exitCode = 0
    ∧ (afterFirstSignal (WaitEvent.retractionDone false)).exitCode = 1
    ∧ (afterFirstSignal WaitEvent.secondSignal).retractionCompleted = false
    ∧ (afterFirstSignal WaitEvent.secondSignal).exitCode = 0 := by
  refine ⟨?_, rfl, rfl, rfl, rfl⟩
  intro s
  cases s <;> rfl

/-- C7 counterexample: the exit code on a resolution failure equals the
exit code on an apply failure, and that one equals the exit code on a
retract failure — the codes are not pairwise different, so the failing
phase cannot be read off the exit status. -/
theorem c7_counterexample :
    exitCodeOnFailure Phase.resolving = exitCodeOnFailure Phase.applying
    ∧ exitCodeOnFailure Phase.applying = exitCodeOnFailure Phase.retracting :=
  ⟨rfl, rfl⟩

/-- C7 (amended): an unrecoverable failure makes the controller exit with
the non-zero code 1 in every phase — resolution, apply and retract
failures all share the same exit code, so the exit status alone does not
identify the failing phase. -/
theorem c7_exit_codes :
    ∀ p : Phase, exitCodeOnFailure p = 1 ∧ 0 < exitCodeOnFailure p := by
  intro p
  cases p <;> exact ⟨rfl, by decide⟩

/-- C8 counterexample: an action whose first attempt fails with a
permanent error is attempted again and the retry loop returns its later
success — the permanent failure neither aborts the sequence immediately
nor surfaces as the result. -/
theorem c8_counterexample :
    backoffRetry 10 permThenOk 0 = Except.ok 2
    ∧ backoffRetry 10 permThenOk 0 ≠ Except.error ErrKind.permanent := by
  constructor
  · rfl
  · intro h
    rw [show backoffRetry 10 permThenOk 0 = Except.ok 2 from rfl] at h
    exact Except.noConfusion h

/-- C8 (amended): the retry wrapper around Lookup, Apply and Retract
retries every failure with exponential backoff regardless of its kind —
transient or permanent alike — as long as back-off budget remains, and
only surfaces the error once the budget is exhausted; no failure aborts
the sequence immediately. -/
theorem c8_retry_all (fuel : Nat) (action : Nat → Except ErrKind Unit)
    (attempt : Nat) (e : ErrKind)
    (h : action attempt = Except.error e) :
    backoffRetry (fuel + 1) action attempt = backoffRetry fuel action (attempt + 1)
    ∧ backoffRetry 0 action attempt = Except.error e := by
  constructor
  · conv_lhs => unfold backoffRetry
    rw [h]
  · unfold backoffRetry
    rw [h]

/-- C8 witness: the retry theorem applied to the concrete action that
fails permanently on its first attempt. -/
theorem c8_witness :
    backoffRetry 4 permThenOk 0 = backoffRetry 3 permThenOk 1
    ∧ backoffRetry 0 permThenOk 0 = Except.error ErrKind.permanent :=
  c8_retry_all 3 permThenOk 0 ErrKind.permanent (by rfl)

end cmdupdate
